import Mathlib

/-!
Shallow embedding of the sign-in store (`signin-store` source file) of the
repository. Stateful TypeScript methods become pure Lean functions that take
the store at invocation time, the outcome of each awaited external call, and
the value of `this.state` observed when each await resolves (interleaved
operations may have replaced it). Each operation returns the operation result
(normal return, fatal assertion, or an uncaught rejection), the resulting
store, and the list of events it emitted (state-change notifications,
authenticated events, capability-updated events, and `emitError` emissions;
`log.info` / `log.error` calls produce nothing observable and are not
modelled as events).
-/

namespace Desktop

/-- A JavaScript `Error` value: its `name`, `message` and optional `code`
property (the source inspects `e.name` and `e.code`). -/
structure Err where
  name : String
  message : String
  code : Option String
deriving DecidableEq

/-- A plain `new Error(message)` value. -/
def mkError (message : String) : Err :=
  ⟨"Error", message, none⟩

/-- The account identity returned by `fetchUser` / `askUserToOAuth`
(external collaborators); only its identity matters to the store. -/
structure Account where
  login : String
deriving DecidableEq

/-- The external 2FA mode enumeration (`AuthenticationMode` from lib/2fa). -/
inductive AuthenticationMode
  | app
  | sms
deriving DecidableEq

/-- The tagged union of authorization outcomes returned by
`createAuthorization` (`AuthorizationResponseKind` dispatch in the source). -/
inductive AuthorizationResponse
  | authorized (token : String)
  | failed
  | twoFactorAuthenticationRequired (type : AuthenticationMode)
  | error (status : Nat) (statusText : String)
  | userRequiresVerification
  | personalAccessTokenBlocked
  | enterpriseTooOld
  | webFlowRequired
deriving DecidableEq

/-- `SignInStep` from the source. -/
inductive SignInStep
  | endpointEntry
  | authentication
  | twoFactorAuthentication
  | success
deriving DecidableEq

/-- Payload of `IEndpointEntryState` (shared `error` / `loading` fields). -/
structure EndpointEntryState where
  error : Option Err
  loading : Bool
deriving DecidableEq

/-- Payload of `IAuthenticationState`. -/
structure AuthState where
  endpoint : String
  supportsBasicAuth : Bool
  forgotPasswordUrl : String
  error : Option Err
  loading : Bool
deriving DecidableEq

/-- Payload of `ITwoFactorAuthenticationState`. -/
structure TwoFactorState where
  endpoint : String
  username : String
  password : String
  type : AuthenticationMode
  error : Option Err
  loading : Bool
deriving DecidableEq

/-- `SignInState`, the union of the four step states. -/
inductive SignInState
  | endpointEntry (s : EndpointEntryState)
  | authentication (s : AuthState)
  | twoFactorAuthentication (s : TwoFactorState)
  | success
deriving DecidableEq

/-- The `kind` discriminant of a state. -/
def SignInState.kind : SignInState → SignInStep
  | .endpointEntry _ => .endpointEntry
  | .authentication _ => .authentication
  | .twoFactorAuthentication _ => .twoFactorAuthentication
  | .success => .success

/-- The string rendering of a step used in fatal-error messages. -/
def SignInStep.text : SignInStep → String
  | .endpointEntry => "EndpointEntry"
  | .authentication => "Authentication"
  | .twoFactorAuthentication => "TwoFactorAuthentication"
  | .success => "Success"

/-- The guard `this.state !== null && this.state.kind === k` that every
post-await continuation re-checks; its negation is the source comment
"Looks like the sign in flow has been aborted". -/
def stepIs (s : Option SignInState) (k : SignInStep) : Bool :=
  match s with
  | none => false
  | some st => decide (st.kind = k)

/-- `SignInMethod` from the source. -/
inductive SignInMethod
  | basic
  | web
deriving DecidableEq

/-- The observable emissions of the store: `emitUpdate` (fired by every
`setState`, carrying the new snapshot), `emitAuthenticate`,
`emitDotComSupportsBasicAuthUpdated`, and `emitError` (the non-recoverable
out-of-band error channel). -/
inductive StoreEvent
  | didUpdate (s : Option SignInState)
  | didAuthenticate (account : Account) (method : SignInMethod)
  | dotComSupportsBasicAuthUpdated (b : Bool)
  | emitError (e : Err)
deriving DecidableEq

/-- How an operation finished: a normal return, a `fatalError` call, or an
uncaught rejection of an awaited promise (e.g. `fetchUser`) that makes the
async method itself reject. -/
inductive OpResult
  | ok
  | fatal (msg : String)
  | threw (e : Err)
deriving DecidableEq

/-- The store: the current flow state (or none) and the
`endpointSupportBasicAuth` map, keyed on endpoint url. -/
structure SignInStore where
  state : Option SignInState
  endpointSupportBasicAuth : List (String × Bool)
deriving DecidableEq

/-- `Map.get` on the capability cache. -/
def cacheGet (m : List (String × Bool)) (k : String) : Option Bool :=
  match m with
  | [] => none
  | (k₀, v) :: rest => if k₀ = k then some v else cacheGet rest k

/-- `Map.set` on the capability cache (replaces an existing entry). -/
def cacheSet (m : List (String × Bool)) (k : String) (v : Bool) :
    List (String × Bool) :=
  match m with
  | [] => [(k, v)]
  | (k₀, v₀) :: rest =>
    if k₀ = k then (k, v) :: rest else (k₀, v₀) :: cacheSet rest k v

/-- `Map.has` on the capability cache. -/
def cacheHas (m : List (String × Bool)) (k : String) : Bool :=
  (cacheGet m k).isSome

/-- `getDotComAPIEndpoint()` (external constant from lib/api). -/
def getDotComAPIEndpoint : String := "https://api.github.com"

/-- `DotComAuthorizationAPIRemovalDate`, i.e.
`Date.parse("2020-11-13T16:00:00.000Z")` in milliseconds since the epoch. -/
def DotComAuthorizationAPIRemovalDate : Nat := 1605283200000

/-- `isBeforeDotComAuthorizationAPIRemoval()`; `Date.now()` is passed in
explicitly as `now` (milliseconds since the epoch). -/
def isBeforeDotComAuthorizationAPIRemoval (now : Nat) : Bool :=
  decide (now < DotComAuthorizationAPIRemovalDate)

/-- `ServerMetaDataTimeout`, the 2000 ms bound on the `/meta` probe. -/
def ServerMetaDataTimeout : Nat := 2000

/-- External constant from lib/enterprise; its value is irrelevant to every
claim (it only appears inside an error message). -/
def minimumSupportedEnterpriseVersion : String := "2.8"

/-- `getUnverifiedUserErrorMessage` from the source. -/
def getUnverifiedUserErrorMessage (login : String) : String :=
  "Unable to authenticate. The account " ++ login ++
    " is lacking a verified email address. Please sign in to GitHub.com, confirm your email address in the Emails section under Personal settings, and try again."

/-- `EnterpriseTooOldMessage` from the source. -/
def EnterpriseTooOldMessage : String :=
  "The GitHub Enterprise Server version does not support GitHub Desktop. Talk to your server\x27s administrator about upgrading to the latest version of GitHub Enterprise Server."

/-- External collaborator functions for deriving urls (`getHTMLURL`,
`getEnterpriseAPIURL` from lib/api); the store only composes them. -/
structure Env where
  getHTMLURL : String → String
  getEnterpriseAPIURL : String → String

/-- `getForgotPasswordURL` from the source. -/
def getForgotPasswordURL (env : Env) (endpoint : String) : String :=
  env.getHTMLURL endpoint ++ "/password_reset"

/-- The `/meta` response body that matters to the store: the
`verifiable_password_authentication` property, `none` when the property is
absent or not a boolean (the source checks it with strict equality). -/
structure ServerMetadata where
  verifiablePasswordAuthentication : Option Bool
deriving DecidableEq

/-- The settled result of `timeout(fetchMetadata(endpoint), 2000, fallback)`
as seen at the await: `fetchMetadata` resolved within the timeout (possibly
with `null`), the timeout fired first (the fallback is substituted), or
`fetchMetadata` rejected (the rejection propagates). -/
inductive MetadataOutcome
  | resolved (m : Option ServerMetadata)
  | timedOut
  | rejected (e : Err)
deriving DecidableEq

/-- The connectivity error thrown by `endpointSupportsBasicAuth` when the
probe is unusable for a non-GitHub.com endpoint. -/
def enterpriseConnectivityError : Err :=
  mkError ("Unable to authenticate with the GitHub Enterprise Server instance. Verify that the URL is correct, that your GitHub Enterprise Server instance is running version " ++
    minimumSupportedEnterpriseVersion ++
    " or later, that you have an internet connection and try again.")

/-- The continuation of `endpointSupportsBasicAuth` after the awaited
`timeout(fetchMetadata(endpoint), ...)` settled with `response` (the probe
value or the substituted fallback): memoizes and notifies on a definite
answer, falls back to the date heuristic for GitHub.com, and throws for an
unreachable enterprise endpoint. -/
def endpointSupportsBasicAuthResponse (store : SignInStore) (endpoint : String)
    (now : Nat) (response : Option ServerMetadata) :
    Except Err Bool × SignInStore × List StoreEvent :=
  match response with
  | some m =>
    let supportsBasicAuth := decide (m.verifiablePasswordAuthentication = some true)
    let store₁ : SignInStore :=
      { store with
          endpointSupportBasicAuth :=
            cacheSet store.endpointSupportBasicAuth endpoint supportsBasicAuth }
    if endpoint = getDotComAPIEndpoint then
      (.ok supportsBasicAuth, store₁, [.dotComSupportsBasicAuthUpdated supportsBasicAuth])
    else
      (.ok supportsBasicAuth, store₁, [])
  | none =>
    if endpoint = getDotComAPIEndpoint then
      let supportsBasicAuth := isBeforeDotComAuthorizationAPIRemoval now
      (.ok supportsBasicAuth, store, [.dotComSupportsBasicAuthUpdated supportsBasicAuth])
    else
      (.error enterpriseConnectivityError, store, [])

/-- `endpointSupportsBasicAuth` from the source: builds the fallback from the
cache, awaits the bounded `/meta` probe (its settled result is `outcome`),
and hands the response to `endpointSupportsBasicAuthResponse`; a rejection
of the probe propagates. Returns the result (or the thrown error), the store
with the possibly-updated cache, and the emitted events. -/
def endpointSupportsBasicAuth (store : SignInStore) (endpoint : String)
    (outcome : MetadataOutcome) (now : Nat) :
    Except Err Bool × SignInStore × List StoreEvent :=
  let fallbackValue : Option ServerMetadata :=
    match cacheGet store.endpointSupportBasicAuth endpoint with
    | none => none
    | some cached => some ⟨some cached⟩
  match outcome with
  | .rejected e => (.error e, store, [])
  | .resolved m => endpointSupportsBasicAuthResponse store endpoint now m
  | .timedOut => endpointSupportsBasicAuthResponse store endpoint now fallbackValue

/-- `tryGetDotComSupportsBasicAuth` from the source: a synchronous read of
the cache, falling back to the date heuristic when no entry exists. -/
def tryGetDotComSupportsBasicAuth (store : SignInStore) (now : Nat) : Bool :=
  match cacheGet store.endpointSupportBasicAuth getDotComAPIEndpoint with
  | none => isBeforeDotComAuthorizationAPIRemoval now
  | some supportsBasicAuth => supportsBasicAuth

/-- `tryGetDotComSupportsBasicAuth` in the uniform operation shape: the
source method only reads the map and performs no network call, so the store
comes back unchanged and no event is emitted. -/
def tryGetDotComSupportsBasicAuthOp (store : SignInStore) (now : Nat) :
    Bool × SignInStore × List StoreEvent :=
  (tryGetDotComSupportsBasicAuth store now, store, [])

/-- The subscription side effect of `onDotComSupportsBasicAuthUpdated`: when
the cache holds no entry for the GitHub.com endpoint it kicks off
`endpointSupportsBasicAuth` whose rejection is swallowed by `.catch`;
otherwise nothing runs. -/
def onDotComSupportsBasicAuthUpdated (store : SignInStore)
    (outcome : MetadataOutcome) (now : Nat) : SignInStore × List StoreEvent :=
  if cacheHas store.endpointSupportBasicAuth getDotComAPIEndpoint then
    (store, [])
  else
    match endpointSupportsBasicAuth store getDotComAPIEndpoint outcome now with
    | (_, store₁, evs) => (store₁, evs)

/-- `reset` from the source. -/
def reset (store : SignInStore) : SignInStore × List StoreEvent :=
  ({ store with state := none }, [.didUpdate none])

/-- `beginEnterpriseSignIn` from the source. -/
def beginEnterpriseSignIn (store : SignInStore) : SignInStore × List StoreEvent :=
  let st : SignInState := .endpointEntry ⟨none, false⟩
  ({ store with state := some st }, [.didUpdate (some st)])

/-- The synchronous part of `beginDotComSignIn`: writes the Authentication
state with the provisional capability value and kicks off the asynchronous
refresh (modelled separately as `beginDotComSignInRefresh`). -/
def beginDotComSignIn (env : Env) (store : SignInStore) (now : Nat) :
    SignInStore × List StoreEvent :=
  let endpoint := getDotComAPIEndpoint
  let st : SignInState := .authentication
    ⟨endpoint, tryGetDotComSupportsBasicAuth store now,
      getForgotPasswordURL env endpoint, none, false⟩
  ({ store with state := some st }, [.didUpdate (some st)])

/-- The asynchronous capability refresh kicked off by `beginDotComSignIn`:
runs `endpointSupportsBasicAuth` for GitHub.com, then the `.then` callback
re-reads `this.state` (passed in as `resumeState`, the value observed when
the probe settles) and only writes `supportsBasicAuth` when the flow is
still on the Authentication step for that endpoint; a rejection only hits
`log.error`. -/
def beginDotComSignInRefresh (store : SignInStore) (outcome : MetadataOutcome)
    (now : Nat) (resumeState : Option SignInState) :
    SignInStore × List StoreEvent :=
  match endpointSupportsBasicAuth { store with state := resumeState }
      getDotComAPIEndpoint outcome now with
  | (.ok supportsBasicAuth, store₁, evs) =>
    match resumeState with
    | some (.authentication a) =>
      if a.endpoint = getDotComAPIEndpoint then
        let st : SignInState := .authentication { a with supportsBasicAuth := supportsBasicAuth }
        ({ store₁ with state := some st }, evs ++ [.didUpdate (some st)])
      else
        (store₁, evs)
    | _ => (store₁, evs)
  | (.error _, store₁, evs) => (store₁, evs)

/-- The error written on a `Failed` outcome of the credentials path; the
message depends on whether the identifier looks like an email. The source
test is `username.includes("@")`, i.e. whether an at sign occurs in the
username, written here as containment in the character list. -/
def incorrectCredentialsError (username : String) : Err :=
  if username.data.contains '@' then mkError "Incorrect email or password."
  else mkError "Incorrect username or password."

/-- The error emitted on an `Error` outcome of the credentials path. -/
def serviceErrorBasic (status : Nat) (statusText : String) : Err :=
  mkError ("The server responded with an error while attempting to authenticate (" ++
    toString status ++ ")\n\n" ++ statusText)

/-- The error emitted on an `Error` outcome of the two-factor path. -/
def serviceErrorTwoFactor (status : Nat) (statusText : String) : Err :=
  mkError ("The server responded with an error (" ++ toString status ++ ")\n\n" ++ statusText)

/-- The personal-access-token error from the source. -/
def patBlockedError : Err :=
  mkError "A personal access token cannot be used to login to GitHub Desktop."

/-- The generic two-factor failure error from the source. -/
def twoFactorFailedError : Err :=
  mkError "Two-factor authentication failed."

/-- `authenticateWithBasicAuth` from the source. `authResult` is the settled
result of `await createAuthorization(endpoint, username, password, null)`,
`stateAtAuthResume` is `this.state` observed when that await resolves,
`userResult` the settled result of `await fetchUser(endpoint, token)` (only
reached on an Authorized outcome) and `stateAtUserResume` is `this.state`
when it resolves. -/
def authenticateWithBasicAuth (store : SignInStore)
    (username password : String)
    (authResult : Except Err AuthorizationResponse)
    (stateAtAuthResume : Option SignInState)
    (userResult : Except Err Account)
    (stateAtUserResume : Option SignInState) :
    OpResult × SignInStore × List StoreEvent :=
  match store.state with
  | none => (.fatal "Sign in step \x27null\x27 not compatible with authentication", store, [])
  | some currentState₀ =>
    match currentState₀ with
    | .authentication currentState =>
      let endpoint := currentState.endpoint
      let loadingState : SignInState := .authentication { currentState with loading := true }
      let evs₀ : List StoreEvent := [.didUpdate (some loadingState)]
      match authResult with
      | .error e =>
        -- the catch around createAuthorization: emits on the error channel
        -- and returns without re-reading the state
        (.ok, { store with state := stateAtAuthResume }, evs₀ ++ [.emitError e])
      | .ok response =>
        if stepIs stateAtAuthResume .authentication then
          match response with
          | .authorized _token =>
            match userResult with
            | .error e =>
              -- fetchUser is not wrapped in try/catch: the rejection makes
              -- the async method itself reject, with nothing written
              (.threw e, { store with state := stateAtUserResume }, evs₀)
            | .ok user =>
              if stepIs stateAtUserResume .authentication then
                (.ok, { store with state := some .success },
                  evs₀ ++ [.didAuthenticate user .basic, .didUpdate (some .success)])
              else
                (.ok, { store with state := stateAtUserResume }, evs₀)
          | .twoFactorAuthenticationRequired type =>
            let st : SignInState := .twoFactorAuthentication
              ⟨endpoint, username, password, type, none, false⟩
            (.ok, { store with state := some st }, evs₀ ++ [.didUpdate (some st)])
          | .error status statusText =>
            let st : SignInState := .authentication { currentState with loading := false }
            (.ok, { store with state := some st },
              evs₀ ++ [.emitError (serviceErrorBasic status statusText), .didUpdate (some st)])
          | .failed =>
            let st : SignInState := .authentication
              { currentState with loading := false, error := some (incorrectCredentialsError username) }
            (.ok, { store with state := some st }, evs₀ ++ [.didUpdate (some st)])
          | .userRequiresVerification =>
            let st : SignInState := .authentication
              { currentState with loading := false, error := some (mkError (getUnverifiedUserErrorMessage username)) }
            (.ok, { store with state := some st }, evs₀ ++ [.didUpdate (some st)])
          | .personalAccessTokenBlocked =>
            let st : SignInState := .authentication
              { currentState with loading := false, error := some patBlockedError }
            (.ok, { store with state := some st }, evs₀ ++ [.didUpdate (some st)])
          | .enterpriseTooOld =>
            let st : SignInState := .authentication
              { currentState with loading := false, error := some (mkError EnterpriseTooOldMessage) }
            (.ok, { store with state := some st }, evs₀ ++ [.didUpdate (some st)])
          | .webFlowRequired =>
            let st : SignInState := .authentication
              { currentState with loading := false, supportsBasicAuth := false }
            (.ok, { store with state := some st }, evs₀ ++ [.didUpdate (some st)])
        else
          -- "Looks like the sign in flow has been aborted"
          (.ok, { store with state := stateAtAuthResume }, evs₀)
    | other =>
      (.fatal ("Sign in step \x27" ++ other.kind.text ++ "\x27 not compatible with authentication"),
        store, [])

/-- `authenticateWithBrowser` from the source. `oauthResult` is the settled
result of `await askUserToOAuth(endpoint)` (which may also never settle, in
which case no continuation runs at all) and `stateAtOAuthResume` is
`this.state` observed when it settles. -/
def authenticateWithBrowser (store : SignInStore)
    (oauthResult : Except Err Account)
    (stateAtOAuthResume : Option SignInState) :
    OpResult × SignInStore × List StoreEvent :=
  match store.state with
  | none => (.fatal "Sign in step \x27null\x27 not compatible with browser authentication", store, [])
  | some currentState₀ =>
    match currentState₀ with
    | .authentication currentState =>
      let loadingState : SignInState := .authentication { currentState with loading := true }
      let evs₀ : List StoreEvent := [.didUpdate (some loadingState)]
      match oauthResult with
      | .error e =>
        -- the catch writes the snapshot with the error without re-reading
        -- the state
        let st : SignInState := .authentication
          { currentState with error := some e, loading := false }
        (.ok, { store with state := some st }, evs₀ ++ [.didUpdate (some st)])
      | .ok account =>
        if stepIs stateAtOAuthResume .authentication then
          (.ok, { store with state := some .success },
            evs₀ ++ [.didAuthenticate account .web, .didUpdate (some .success)])
        else
          (.ok, { store with state := stateAtOAuthResume }, evs₀)
    | other =>
      (.fatal ("Sign in step \x27" ++ other.kind.text ++ "\x27 not compatible with browser authentication"),
        store, [])

/-- `InvalidURLErrorName` (external constant of the url validator). -/
def InvalidURLErrorName : String := "invalid-url"

/-- `InvalidProtocolErrorName` (external constant of the url validator). -/
def InvalidProtocolErrorName : String := "invalid-protocol"

/-- The rewritten invalid-url error from `setEndpoint`. -/
def invalidUrlError : Err :=
  mkError "The GitHub Enterprise Server instance address doesn\x27t appear to be a valid URL. We\x27re expecting something like https://github.example.com."

/-- The rewritten invalid-protocol error from `setEndpoint`. -/
def invalidProtocolError : Err :=
  mkError "Unsupported protocol. Only http or https is supported when authenticating with GitHub Enterprise Server instances."

/-- The rewritten host-not-found error from `setEndpoint`. -/
def serverNotFoundError : Err :=
  mkError "The server could not be found. Please verify that the URL is correct and that you have a stable internet connection."

/-- `setEndpoint` from the source. `validateResult` is the result of the
synchronous `validateURL(url)` call, `metadataOutcome`/`now` feed the awaited
`endpointSupportsBasicAuth` probe, and `stateAtProbeResume` is `this.state`
observed when that await settles. -/
def setEndpoint (env : Env) (store : SignInStore) (_url : String)
    (validateResult : Except Err String)
    (metadataOutcome : MetadataOutcome) (now : Nat)
    (stateAtProbeResume : Option SignInState) :
    OpResult × SignInStore × List StoreEvent :=
  match store.state with
  | none => (.fatal "Sign in step \x27null\x27 not compatible with endpoint entry", store, [])
  | some currentState₀ =>
    match currentState₀ with
    | .endpointEntry currentState =>
      let loadingState : SignInState := .endpointEntry { currentState with loading := true }
      let evs₀ : List StoreEvent := [.didUpdate (some loadingState)]
      match validateResult with
      | .error e =>
        let error :=
          if e.name = InvalidURLErrorName then invalidUrlError
          else if e.name = InvalidProtocolErrorName then invalidProtocolError
          else e
        let st : SignInState := .endpointEntry
          { currentState with loading := false, error := some error }
        (.ok, { store with state := some st }, evs₀ ++ [.didUpdate (some st)])
      | .ok validUrl =>
        let endpoint := env.getEnterpriseAPIURL validUrl
        match endpointSupportsBasicAuth store endpoint metadataOutcome now with
        | (.ok supportsBasicAuth, store₁, probeEvs) =>
          if stepIs stateAtProbeResume .endpointEntry then
            let st : SignInState := .authentication
              ⟨endpoint, supportsBasicAuth, getForgotPasswordURL env endpoint, none, false⟩
            (.ok, { store₁ with state := some st }, evs₀ ++ probeEvs ++ [.didUpdate (some st)])
          else
            -- "Looks like the sign in flow has been aborted"
            (.ok, { store₁ with state := stateAtProbeResume }, evs₀ ++ probeEvs)
        | (.error e, store₁, probeEvs) =>
          -- the catch writes the snapshot with the error without re-reading
          -- the state
          let error := if e.code = some "ENOTFOUND" then serverNotFoundError else e
          let st : SignInState := .endpointEntry
            { currentState with loading := false, error := some error }
          (.ok, { store₁ with state := some st }, evs₀ ++ probeEvs ++ [.didUpdate (some st)])
    | other =>
      (.fatal ("Sign in step \x27" ++ other.kind.text ++ "\x27 not compatible with endpoint entry"),
        store, [])

/-- `setTwoFactorOTP` from the source. Parameters are as for
`authenticateWithBasicAuth` (the stored username/password are re-submitted
together with the `otp`). -/
def setTwoFactorOTP (env : Env) (store : SignInStore) (_otp : String)
    (authResult : Except Err AuthorizationResponse)
    (stateAtAuthResume : Option SignInState)
    (userResult : Except Err Account)
    (stateAtUserResume : Option SignInState) :
    OpResult × SignInStore × List StoreEvent :=
  match store.state with
  | none => (.fatal "Sign in step \x27null\x27 not compatible with two factor authentication", store, [])
  | some currentState₀ =>
    match currentState₀ with
    | .twoFactorAuthentication currentState =>
      let loadingState : SignInState := .twoFactorAuthentication { currentState with loading := true }
      let evs₀ : List StoreEvent := [.didUpdate (some loadingState)]
      match authResult with
      | .error e =>
        (.ok, { store with state := stateAtAuthResume }, evs₀ ++ [.emitError e])
      | .ok response =>
        if stepIs stateAtAuthResume .twoFactorAuthentication then
          match response with
          | .authorized _token =>
            match userResult with
            | .error e =>
              (.threw e, { store with state := stateAtUserResume }, evs₀)
            | .ok user =>
              if stepIs stateAtUserResume .twoFactorAuthentication then
                (.ok, { store with state := some .success },
                  evs₀ ++ [.didAuthenticate user .basic, .didUpdate (some .success)])
              else
                (.ok, { store with state := stateAtUserResume }, evs₀)
          | .failed =>
            let st : SignInState := .twoFactorAuthentication
              { currentState with loading := false, error := some twoFactorFailedError }
            (.ok, { store with state := some st }, evs₀ ++ [.didUpdate (some st)])
          | .twoFactorAuthenticationRequired _ =>
            let st : SignInState := .twoFactorAuthentication
              { currentState with loading := false, error := some twoFactorFailedError }
            (.ok, { store with state := some st }, evs₀ ++ [.didUpdate (some st)])
          | .error status statusText =>
            (.ok, { store with state := stateAtAuthResume },
              evs₀ ++ [.emitError (serviceErrorTwoFactor status statusText)])
          | .userRequiresVerification =>
            (.ok, { store with state := stateAtAuthResume },
              evs₀ ++ [.emitError (mkError (getUnverifiedUserErrorMessage currentState.username))])
          | .personalAccessTokenBlocked =>
            (.ok, { store with state := stateAtAuthResume },
              evs₀ ++ [.emitError patBlockedError])
          | .enterpriseTooOld =>
            (.ok, { store with state := stateAtAuthResume },
              evs₀ ++ [.emitError (mkError EnterpriseTooOldMessage)])
          | .webFlowRequired =>
            let st : SignInState := .authentication
              ⟨currentState.endpoint, false,
                getForgotPasswordURL env currentState.endpoint, none, false⟩
            (.ok, { store with state := some st }, evs₀ ++ [.didUpdate (some st)])
        else
          -- "Looks like the sign in flow has been aborted"
          (.ok, { store with state := stateAtAuthResume }, evs₀)
    | other =>
      (.fatal ("Sign in step \x27" ++ other.kind.text ++ "\x27 not compatible with two factor authentication"),
        store, [])

/-! Helpers for stating the claims: projections over emitted event lists and
a decidable substring check for error messages. -/

/-- The authenticated-account emissions contained in an event list. -/
def authEvts : List StoreEvent → List (Account × SignInMethod)
  | [] => []
  | .didAuthenticate a m :: rest => (a, m) :: authEvts rest
  | _ :: rest => authEvts rest

/-- Every authenticated-account emission in the list is immediately followed
by a state-change notification whose written state is `Success`. -/
def authFollowedBySuccess : List StoreEvent → Bool
  | [] => true
  | .didAuthenticate _ _ :: rest =>
    (match rest with
     | .didUpdate (some .success) :: _ => true
     | _ => false) && authFollowedBySuccess rest
  | _ :: rest => authFollowedBySuccess rest

/-- Events that write state, emit an error, or announce authentication;
capability-updated notifications are none of these. -/
def isWriteOrError : StoreEvent → Bool
  | .didUpdate _ => true
  | .didAuthenticate _ _ => true
  | .emitError _ => true
  | .dotComSupportsBasicAuthUpdated _ => false

/-- `charListStartsWith needle hay`: `needle` is a prefix of `hay`. -/
def charListStartsWith : List Char → List Char → Bool
  | [], _ => true
  | _ :: _, [] => false
  | n :: ns, h :: hs => n == h && charListStartsWith ns hs

/-- `charListMentions needle hay`: `needle` occurs contiguously in `hay`. -/
def charListMentions (needle : List Char) : List Char → Bool
  | [] => needle.isEmpty
  | h :: hs => charListStartsWith needle (h :: hs) || charListMentions needle hs

/-- `strMentions needle hay`: `needle` occurs as a substring of `hay`. -/
def strMentions (needle hay : String) : Bool :=
  charListMentions needle.data hay.data

/-- An operation run whose await resumed against state `resumeState` was
silently discarded: it returned normally, left `this.state` exactly as the
resume observed it, and the only state write, error emission or
authentication announcement it ever produced is the `loading := true` write
made before the await (`loadingState`). -/
def silentlyDiscarded (resumeState : Option SignInState)
    (loadingState : SignInState)
    (out : OpResult × SignInStore × List StoreEvent) : Prop :=
  out.1 = .ok ∧ out.2.1.state = resumeState ∧
    out.2.2.filter isWriteOrError = [.didUpdate (some loadingState)]

/-! Shared helper lemmas about the capability probe. -/

/-- The probe continuation never touches the flow state, only the cache. -/
theorem endpointSupportsBasicAuthResponse_state (store : SignInStore) (endpoint : String)
    (now : Nat) (response : Option ServerMetadata) :
    (endpointSupportsBasicAuthResponse store endpoint now response).2.1.state = store.state := by
  rcases response with _ | m <;>
    simp only [endpointSupportsBasicAuthResponse] <;> split <;> rfl

/-- The probe continuation emits no state write, error emission or
authentication announcement: at most a capability-updated notification. -/
theorem endpointSupportsBasicAuthResponse_events (store : SignInStore) (endpoint : String)
    (now : Nat) (response : Option ServerMetadata) :
    ((endpointSupportsBasicAuthResponse store endpoint now response).2.2).filter
      isWriteOrError = [] := by
  rcases response with _ | m <;>
    simp only [endpointSupportsBasicAuthResponse] <;> split <;> simp [isWriteOrError]

/-- The probe continuation emits no authenticated-account event. -/
theorem endpointSupportsBasicAuthResponse_authEvts (store : SignInStore) (endpoint : String)
    (now : Nat) (response : Option ServerMetadata) :
    authEvts (endpointSupportsBasicAuthResponse store endpoint now response).2.2 = [] := by
  rcases response with _ | m <;>
    simp only [endpointSupportsBasicAuthResponse] <;> split <;> simp [authEvts]

/-- The probe never touches the flow state, only the cache. -/
theorem endpointSupportsBasicAuth_state (store : SignInStore) (endpoint : String)
    (outcome : MetadataOutcome) (now : Nat) :
    (endpointSupportsBasicAuth store endpoint outcome now).2.1.state = store.state := by
  rcases outcome with m | _ | e <;>
    simp [endpointSupportsBasicAuth, endpointSupportsBasicAuthResponse_state]

/-- The probe emits no state write, no error emission and no authentication
announcement: at most a capability-updated notification. -/
theorem endpointSupportsBasicAuth_events (store : SignInStore) (endpoint : String)
    (outcome : MetadataOutcome) (now : Nat) :
    ((endpointSupportsBasicAuth store endpoint outcome now).2.2).filter isWriteOrError = [] := by
  rcases outcome with m | _ | e <;>
    simp [endpointSupportsBasicAuth, endpointSupportsBasicAuthResponse_events]

/-- The probe emits no authenticated-account event. -/
theorem endpointSupportsBasicAuth_authEvts (store : SignInStore) (endpoint : String)
    (outcome : MetadataOutcome) (now : Nat) :
    authEvts (endpointSupportsBasicAuth store endpoint outcome now).2.2 = [] := by
  rcases outcome with m | _ | e <;>
    simp [endpointSupportsBasicAuth, endpointSupportsBasicAuthResponse_authEvts, authEvts]

/-- C7: tryGetDotComSupportsBasicAuth returns the cached capability value for
the hosted endpoint when one exists; when none exists it returns true if and
only if the current time is strictly before the fixed deprecation deadline;
in either case it populates no cache entry, makes no network call and emits
nothing. -/
theorem claim_C7 (store : SignInStore) (now : Nat) :
    (tryGetDotComSupportsBasicAuthOp store now).2.1 = store ∧
    (tryGetDotComSupportsBasicAuthOp store now).2.2 = [] ∧
    (∀ b, cacheGet store.endpointSupportBasicAuth getDotComAPIEndpoint = some b →
      (tryGetDotComSupportsBasicAuthOp store now).1 = b) ∧
    (cacheGet store.endpointSupportBasicAuth getDotComAPIEndpoint = none →
      ((tryGetDotComSupportsBasicAuthOp store now).1 = true ↔
        now < DotComAuthorizationAPIRemovalDate)) := by
  refine ⟨rfl, rfl, ?_, ?_⟩
  · intro b hb
    simp [tryGetDotComSupportsBasicAuthOp, tryGetDotComSupportsBasicAuth, hb]
  · intro hb
    simp [tryGetDotComSupportsBasicAuthOp, tryGetDotComSupportsBasicAuth, hb,
      isBeforeDotComAuthorizationAPIRemoval]

/-- Witness for C7: with an empty cache, at one millisecond before the
deadline the heuristic answers true. -/
theorem claim_C7_witness :
    (tryGetDotComSupportsBasicAuthOp ⟨none, []⟩ 1605283199999).1 = true :=
  ((claim_C7 ⟨none, []⟩ 1605283199999).2.2.2 rfl).mpr
    (by simp [DotComAuthorizationAPIRemovalDate])

/-- C5: on a TwoFactorRequired outcome with channel `mode`, the credentials
path transitions to the TwoFactorAuthentication step carrying the same
endpoint, the submitted username and password verbatim, type equal to the
channel, error null and loading false. -/
theorem claim_C5 (store : SignInStore) (a : AuthState)
    (username password : String) (mode : AuthenticationMode)
    (r₁ : Option SignInState) (ur : Except Err Account) (r₂ : Option SignInState)
    (hs : store.state = some (.authentication a))
    (hr : stepIs r₁ .authentication = true) :
    authenticateWithBasicAuth store username password
        (.ok (.twoFactorAuthenticationRequired mode)) r₁ ur r₂ =
      (.ok,
        { store with state := some (.twoFactorAuthentication
            ⟨a.endpoint, username, password, mode, none, false⟩) },
        [.didUpdate (some (.authentication { a with loading := true })),
         .didUpdate (some (.twoFactorAuthentication
           ⟨a.endpoint, username, password, mode, none, false⟩))]) := by
  simp [authenticateWithBasicAuth, hs, hr]

/-- Witness for C5 at a concrete store and submission. -/
theorem claim_C5_witness :
    authenticateWithBasicAuth ⟨some (.authentication ⟨"ep", true, "fp", none, false⟩), []⟩
        "alice" "hunter2" (.ok (.twoFactorAuthenticationRequired .app))
        (some (.authentication ⟨"ep", true, "fp", none, true⟩)) (.ok ⟨"alice"⟩) none =
      (.ok,
        ⟨some (.twoFactorAuthentication ⟨"ep", "alice", "hunter2", .app, none, false⟩), []⟩,
        [.didUpdate (some (.authentication ⟨"ep", true, "fp", none, true⟩)),
         .didUpdate (some (.twoFactorAuthentication
           ⟨"ep", "alice", "hunter2", .app, none, false⟩))]) :=
  claim_C5 ⟨some (.authentication ⟨"ep", true, "fp", none, false⟩), []⟩
    ⟨"ep", true, "fp", none, false⟩ "alice" "hunter2" .app
    (some (.authentication ⟨"ep", true, "fp", none, true⟩)) (.ok ⟨"alice"⟩) none
    rfl (by decide)

/-- C6: on a Failed outcome the credentials path stays on the Authentication
step with loading false and a non-null error whose text mentions "email"
when the submitted username contains an at sign and "username" otherwise;
a Failed outcome during two-factor submission always yields the generic
error "Two-factor authentication failed." -/
theorem claim_C6 :
    (∀ (store : SignInStore) (a : AuthState) (username password : String)
        (r₁ : Option SignInState) (ur : Except Err Account) (r₂ : Option SignInState),
      store.state = some (.authentication a) →
      stepIs r₁ .authentication = true →
      authenticateWithBasicAuth store username password (.ok .failed) r₁ ur r₂ =
        (.ok,
          { store with state := some (.authentication
              { a with loading := false, error := some (incorrectCredentialsError username) }) },
          [.didUpdate (some (.authentication { a with loading := true })),
           .didUpdate (some (.authentication
             { a with loading := false, error := some (incorrectCredentialsError username) }))])) ∧
    (∀ username : String, username.data.contains '@' = true →
      strMentions "email" (incorrectCredentialsError username).message = true) ∧
    (∀ username : String, username.data.contains '@' = false →
      strMentions "username" (incorrectCredentialsError username).message = true) ∧
    (∀ (env : Env) (store : SignInStore) (t : TwoFactorState) (otp : String)
        (r₁ : Option SignInState) (ur : Except Err Account) (r₂ : Option SignInState),
      store.state = some (.twoFactorAuthentication t) →
      stepIs r₁ .twoFactorAuthentication = true →
      setTwoFactorOTP env store otp (.ok .failed) r₁ ur r₂ =
        (.ok,
          { store with state := some (.twoFactorAuthentication
              { t with loading := false, error := some twoFactorFailedError }) },
          [.didUpdate (some (.twoFactorAuthentication { t with loading := true })),
           .didUpdate (some (.twoFactorAuthentication
             { t with loading := false, error := some twoFactorFailedError }))])) ∧
    twoFactorFailedError = mkError "Two-factor authentication failed." := by
  refine ⟨?_, ?_, ?_, ?_, rfl⟩
  · intro store a username password r₁ ur r₂ hs hr
    simp [authenticateWithBasicAuth, hs, hr]
  · intro username hu
    simp only [incorrectCredentialsError, hu, if_true]
    decide
  · intro username hu
    simp only [incorrectCredentialsError, hu, Bool.false_eq_true, if_false]
    decide
  · intro env store t otp r₁ ur r₂ hs hr
    simp [setTwoFactorOTP, hs, hr]

/-- Witness for C6: a concrete Failed submission with an email-looking
identifier, and the email-vs-username message distinction at concrete
identifiers. -/
theorem claim_C6_witness :
    (authenticateWithBasicAuth ⟨some (.authentication ⟨"ep", true, "fp", none, false⟩), []⟩
        "user@example.com" "wrong" (.ok .failed)
        (some (.authentication ⟨"ep", true, "fp", none, true⟩)) (.ok ⟨"u"⟩) none =
      (.ok,
        ⟨some (.authentication
          ⟨"ep", true, "fp", some (incorrectCredentialsError "user@example.com"), false⟩), []⟩,
        [.didUpdate (some (.authentication ⟨"ep", true, "fp", none, true⟩)),
         .didUpdate (some (.authentication
           ⟨"ep", true, "fp", some (incorrectCredentialsError "user@example.com"), false⟩))])) ∧
    strMentions "email" (incorrectCredentialsError "user@example.com").message = true ∧
    strMentions "username" (incorrectCredentialsError "someuser").message = true := by
  refine ⟨?_, ?_, ?_⟩
  · exact claim_C6.1 ⟨some (.authentication ⟨"ep", true, "fp", none, false⟩), []⟩
      ⟨"ep", true, "fp", none, false⟩ "user@example.com" "wrong"
      (some (.authentication ⟨"ep", true, "fp", none, true⟩)) (.ok ⟨"u"⟩) none
      rfl (by decide)
  · exact claim_C6.2.1 "user@example.com" (by decide)
  · exact claim_C6.2.2.1 "someuser" (by decide)

/-- C9: every out-of-band error outcome during two-factor submission
(ServiceError, UserRequiresVerification, PersonalAccessTokenBlocked,
EnterpriseTooOld) is emitted on the non-recoverable channel and writes no
state: absent interference, the flow remains at the TwoFactorAuthentication
step with loading still true (set before the await), and only reset clears
it. -/
theorem claim_C9 :
    (∀ (env : Env) (store : SignInStore) (t : TwoFactorState) (otp : String)
        (ur : Except Err Account) (r₂ : Option SignInState) (status : Nat) (statusText : String),
      store.state = some (.twoFactorAuthentication t) →
      setTwoFactorOTP env store otp (.ok (.error status statusText))
          (some (.twoFactorAuthentication { t with loading := true })) ur r₂ =
        (.ok, { store with state := some (.twoFactorAuthentication { t with loading := true }) },
          [.didUpdate (some (.twoFactorAuthentication { t with loading := true })),
           .emitError (serviceErrorTwoFactor status statusText)])) ∧
    (∀ (env : Env) (store : SignInStore) (t : TwoFactorState) (otp : String)
        (ur : Except Err Account) (r₂ : Option SignInState),
      store.state = some (.twoFactorAuthentication t) →
      setTwoFactorOTP env store otp (.ok .userRequiresVerification)
          (some (.twoFactorAuthentication { t with loading := true })) ur r₂ =
        (.ok, { store with state := some (.twoFactorAuthentication { t with loading := true }) },
          [.didUpdate (some (.twoFactorAuthentication { t with loading := true })),
           .emitError (mkError (getUnverifiedUserErrorMessage t.username))])) ∧
    (∀ (env : Env) (store : SignInStore) (t : TwoFactorState) (otp : String)
        (ur : Except Err Account) (r₂ : Option SignInState),
      store.state = some (.twoFactorAuthentication t) →
      setTwoFactorOTP env store otp (.ok .personalAccessTokenBlocked)
          (some (.twoFactorAuthentication { t with loading := true })) ur r₂ =
        (.ok, { store with state := some (.twoFactorAuthentication { t with loading := true }) },
          [.didUpdate (some (.twoFactorAuthentication { t with loading := true })),
           .emitError patBlockedError])) ∧
    (∀ (env : Env) (store : SignInStore) (t : TwoFactorState) (otp : String)
        (ur : Except Err Account) (r₂ : Option SignInState),
      store.state = some (.twoFactorAuthentication t) →
      setTwoFactorOTP env store otp (.ok .enterpriseTooOld)
          (some (.twoFactorAuthentication { t with loading := true })) ur r₂ =
        (.ok, { store with state := some (.twoFactorAuthentication { t with loading := true }) },
          [.didUpdate (some (.twoFactorAuthentication { t with loading := true })),
           .emitError (mkError EnterpriseTooOldMessage)])) ∧
    (∀ store : SignInStore, reset store = ({ store with state := none }, [.didUpdate none])) := by
  refine ⟨?_, ?_, ?_, ?_, fun _ => rfl⟩ <;>
    · intros env store t otp ur r₂
      intros
      simp_all [setTwoFactorOTP, stepIs, SignInState.kind]

/-- Witness for C9: a concrete EnterpriseTooOld outcome during two-factor
submission leaves the loading two-factor state in place and emits the error
out of band. -/
theorem claim_C9_witness :
    setTwoFactorOTP ⟨id, id⟩
        ⟨some (.twoFactorAuthentication ⟨"ep", "u", "p", .app, none, false⟩), []⟩ "123456"
        (.ok .enterpriseTooOld)
        (some (.twoFactorAuthentication ⟨"ep", "u", "p", .app, none, true⟩)) (.ok ⟨"u"⟩) none =
      (.ok, ⟨some (.twoFactorAuthentication ⟨"ep", "u", "p", .app, none, true⟩), []⟩,
        [.didUpdate (some (.twoFactorAuthentication ⟨"ep", "u", "p", .app, none, true⟩)),
         .emitError (mkError EnterpriseTooOldMessage)]) :=
  claim_C9.2.2.2.1 ⟨id, id⟩
    ⟨some (.twoFactorAuthentication ⟨"ep", "u", "p", .app, none, false⟩), []⟩
    ⟨"ep", "u", "p", .app, none, false⟩ "123456" (.ok ⟨"u"⟩) none rfl

/-- C10: subscribing via onDotComSupportsBasicAuthUpdated runs the
capability probe as a side effect exactly when the cache holds no entry for
the hosted endpoint (a probe rejection being silently swallowed); with a
cached entry the subscription has no side effect for any probe outcome. -/
theorem claim_C10 :
    (∀ (store : SignInStore) (outcome : MetadataOutcome) (now : Nat),
      cacheHas store.endpointSupportBasicAuth getDotComAPIEndpoint = false →
      onDotComSupportsBasicAuthUpdated store outcome now =
        ((endpointSupportsBasicAuth store getDotComAPIEndpoint outcome now).2.1,
         (endpointSupportsBasicAuth store getDotComAPIEndpoint outcome now).2.2)) ∧
    (∀ (store : SignInStore) (now : Nat) (e : Err),
      cacheHas store.endpointSupportBasicAuth getDotComAPIEndpoint = false →
      onDotComSupportsBasicAuthUpdated store (.rejected e) now = (store, [])) ∧
    (∀ (store : SignInStore) (m : ServerMetadata) (now : Nat),
      cacheHas store.endpointSupportBasicAuth getDotComAPIEndpoint = false →
      onDotComSupportsBasicAuthUpdated store (.resolved (some m)) now =
        ({ store with endpointSupportBasicAuth := cacheSet store.endpointSupportBasicAuth getDotComAPIEndpoint (decide (m.verifiablePasswordAuthentication = some true)) },
         [.dotComSupportsBasicAuthUpdated (decide (m.verifiablePasswordAuthentication = some true))])) ∧
    (∀ (store : SignInStore) (outcome : MetadataOutcome) (now : Nat),
      cacheHas store.endpointSupportBasicAuth getDotComAPIEndpoint = true →
      onDotComSupportsBasicAuthUpdated store outcome now = (store, [])) := by
  refine ⟨?_, ?_, ?_, ?_⟩
  · intro store outcome now h
    rcases hp : endpointSupportsBasicAuth store getDotComAPIEndpoint outcome now with ⟨r, s, evs⟩
    simp [onDotComSupportsBasicAuthUpdated, h, hp]
  · intro store now e h
    simp [onDotComSupportsBasicAuthUpdated, h, endpointSupportsBasicAuth]
  · intro store m now h
    simp [onDotComSupportsBasicAuthUpdated, h, endpointSupportsBasicAuth,
      endpointSupportsBasicAuthResponse]
  · intro store outcome now h
    simp [onDotComSupportsBasicAuthUpdated, h]

/-- Witness for C10: with an empty cache, subscribing with a probe that
resolves to a definite "no basic auth" populates the cache and fires the
capability notification; with a cached entry nothing happens. -/
theorem claim_C10_witness :
    onDotComSupportsBasicAuthUpdated ⟨none, []⟩ (.resolved (some ⟨some false⟩)) 0 =
      (⟨none, [(getDotComAPIEndpoint, false)]⟩, [.dotComSupportsBasicAuthUpdated false]) ∧
    onDotComSupportsBasicAuthUpdated ⟨none, [(getDotComAPIEndpoint, true)]⟩ .timedOut 0 =
      (⟨none, [(getDotComAPIEndpoint, true)]⟩, []) := by
  constructor
  · have h := claim_C10.2.2.1 ⟨none, []⟩ ⟨some false⟩ 0 (by decide)
    simpa [cacheSet] using h
  · exact claim_C10.2.2.2 ⟨none, [(getDotComAPIEndpoint, true)]⟩ .timedOut 0 (by decide)

/-- C8: the asynchronous capability refresh of beginDotComSignIn, resolving
while the flow is still on the Authentication step for the hosted endpoint,
updates only the supportsBasicAuth field; when the flow has been reset or
has moved on (or is on a different endpoint) it does not mutate the state at
all. -/
theorem claim_C8 :
    (∀ (store : SignInStore) (outcome : MetadataOutcome) (now : Nat)
        (r : Option SignInState) (a : AuthState) (v : Bool),
      r = some (.authentication a) → a.endpoint = getDotComAPIEndpoint →
      (endpointSupportsBasicAuth { store with state := r }
          getDotComAPIEndpoint outcome now).1 = .ok v →
      (beginDotComSignInRefresh store outcome now r).1.state =
        some (.authentication { a with supportsBasicAuth := v })) ∧
    (∀ (store : SignInStore) (outcome : MetadataOutcome) (now : Nat)
        (r : Option SignInState),
      stepIs r .authentication = false →
      (beginDotComSignInRefresh store outcome now r).1.state = r) ∧
    (∀ (store : SignInStore) (outcome : MetadataOutcome) (now : Nat)
        (r : Option SignInState) (a : AuthState),
      r = some (.authentication a) → a.endpoint ≠ getDotComAPIEndpoint →
      (beginDotComSignInRefresh store outcome now r).1.state = r) := by
  refine ⟨?_, ?_, ?_⟩
  · intro store outcome now r a v hr ha hok
    subst hr
    rcases hp : endpointSupportsBasicAuth
        { store with state := some (.authentication a) }
        getDotComAPIEndpoint outcome now with ⟨res, s₁, evs⟩
    rw [hp] at hok
    simp at hok
    simp [beginDotComSignInRefresh, hp, hok, ha]
  · intro store outcome now r hr
    rcases hp : endpointSupportsBasicAuth { store with state := r }
        getDotComAPIEndpoint outcome now with ⟨res, s₁, evs⟩
    have hst : s₁.state = r := by
      have := endpointSupportsBasicAuth_state { store with state := r }
        getDotComAPIEndpoint outcome now
      rw [hp] at this
      simpa using this
    rcases res with e | v
    · simp [beginDotComSignInRefresh, hp, hst]
    · rcases r with _ | st
      · simp [beginDotComSignInRefresh, hp, hst]
      · rcases st with ee | ast | t | _
        · simp [beginDotComSignInRefresh, hp, hst]
        · simp [stepIs, SignInState.kind] at hr
        · simp [beginDotComSignInRefresh, hp, hst]
        · simp [beginDotComSignInRefresh, hp, hst]
  · intro store outcome now r a hr ha
    subst hr
    rcases hp : endpointSupportsBasicAuth
        { store with state := some (.authentication a) }
        getDotComAPIEndpoint outcome now with ⟨res, s₁, evs⟩
    have hst : s₁.state = some (.authentication a) := by
      have := endpointSupportsBasicAuth_state
        { store with state := some (.authentication a) }
        getDotComAPIEndpoint outcome now
      rw [hp] at this
      simpa using this
    rcases res with e | v
    · simp [beginDotComSignInRefresh, hp, hst]
    · simp [beginDotComSignInRefresh, hp, hst, ha]

/-- Witness for C8: a slow probe answering false after the flow was reset is
a no-op, and the same probe with the flow still on the hosted Authentication
step flips only supportsBasicAuth. -/
theorem claim_C8_witness :
    (beginDotComSignInRefresh ⟨none, []⟩ (.resolved (some ⟨some false⟩)) 0 none).1.state = none ∧
    (beginDotComSignInRefresh ⟨none, []⟩ (.resolved (some ⟨some false⟩)) 0
        (some (.authentication ⟨getDotComAPIEndpoint, true, "fp", none, false⟩))).1.state =
      some (.authentication ⟨getDotComAPIEndpoint, false, "fp", none, false⟩) := by
  constructor
  · exact claim_C8.2.1 ⟨none, []⟩ (.resolved (some ⟨some false⟩)) 0 none (by decide)
  · exact claim_C8.1 ⟨none, []⟩ (.resolved (some ⟨some false⟩)) 0
      (some (.authentication ⟨getDotComAPIEndpoint, true, "fp", none, false⟩))
      ⟨getDotComAPIEndpoint, true, "fp", none, false⟩ false rfl rfl rfl

/-- C3 counterexample: on a ServiceError outcome (status 500) the
credentials path does not set the in-state error field with the status
detail: the written state keeps error = none (the detail goes to the
out-of-band channel instead). -/
theorem claim_C3_counterexample :
    authenticateWithBasicAuth
        ⟨some (.authentication ⟨"https://ghe.example.com/api/v3", true, "fp", none, false⟩), []⟩
        "alice" "hunter2" (.ok (.error 500 "Internal Server Error"))
        (some (.authentication ⟨"https://ghe.example.com/api/v3", true, "fp", none, true⟩))
        (.ok ⟨"alice"⟩) none =
      (.ok,
        ⟨some (.authentication ⟨"https://ghe.example.com/api/v3", true, "fp", none, false⟩), []⟩,
        [.didUpdate (some (.authentication ⟨"https://ghe.example.com/api/v3", true, "fp", none, true⟩)),
         .emitError (serviceErrorBasic 500 "Internal Server Error"),
         .didUpdate (some (.authentication ⟨"https://ghe.example.com/api/v3", true, "fp", none, false⟩))]) ∧
    (authenticateWithBasicAuth
        ⟨some (.authentication ⟨"https://ghe.example.com/api/v3", true, "fp", none, false⟩), []⟩
        "alice" "hunter2" (.ok (.error 500 "Internal Server Error"))
        (some (.authentication ⟨"https://ghe.example.com/api/v3", true, "fp", none, true⟩))
        (.ok ⟨"alice"⟩) none).2.1.state ≠
      some (.authentication ⟨"https://ghe.example.com/api/v3", true, "fp",
        some (serviceErrorBasic 500 "Internal Server Error"), false⟩) := by
  constructor
  · rfl
  · decide

/-- C3 as amended: on a ServiceError outcome the credentials path emits the
status detail on the non-recoverable error channel and writes a state that
keeps the current step with loading cleared and the in-state error field
unchanged; a ServiceError during two-factor submission is likewise reported
via the non-recoverable channel, with no state write. -/
theorem claim_C3 :
    (∀ (store : SignInStore) (a : AuthState) (username password : String)
        (status : Nat) (statusText : String)
        (r₁ : Option SignInState) (ur : Except Err Account) (r₂ : Option SignInState),
      store.state = some (.authentication a) →
      stepIs r₁ .authentication = true →
      authenticateWithBasicAuth store username password
          (.ok (.error status statusText)) r₁ ur r₂ =
        (.ok, { store with state := some (.authentication { a with loading := false }) },
          [.didUpdate (some (.authentication { a with loading := true })),
           .emitError (serviceErrorBasic status statusText),
           .didUpdate (some (.authentication { a with loading := false }))])) ∧
    (∀ (env : Env) (store : SignInStore) (t : TwoFactorState) (otp : String)
        (status : Nat) (statusText : String)
        (r₁ : Option SignInState) (ur : Except Err Account) (r₂ : Option SignInState),
      store.state = some (.twoFactorAuthentication t) →
      stepIs r₁ .twoFactorAuthentication = true →
      setTwoFactorOTP env store otp (.ok (.error status statusText)) r₁ ur r₂ =
        (.ok, { store with state := r₁ },
          [.didUpdate (some (.twoFactorAuthentication { t with loading := true })),
           .emitError (serviceErrorTwoFactor status statusText)])) := by
  constructor
  · intro store a username password status statusText r₁ ur r₂ hs hr
    simp [authenticateWithBasicAuth, hs, hr]
  · intro env store t otp status statusText r₁ ur r₂ hs hr
    simp [setTwoFactorOTP, hs, hr]

/-- Witness for the amended C3 at a concrete ServiceError outcome. -/
theorem claim_C3_witness :
    authenticateWithBasicAuth ⟨some (.authentication ⟨"ep", true, "fp", none, false⟩), []⟩
        "alice" "pw" (.ok (.error 502 "Bad Gateway"))
        (some (.authentication ⟨"ep", true, "fp", none, true⟩)) (.ok ⟨"a"⟩) none =
      (.ok, ⟨some (.authentication ⟨"ep", true, "fp", none, false⟩), []⟩,
        [.didUpdate (some (.authentication ⟨"ep", true, "fp", none, true⟩)),
         .emitError (serviceErrorBasic 502 "Bad Gateway"),
         .didUpdate (some (.authentication ⟨"ep", true, "fp", none, false⟩))]) :=
  claim_C3.1 ⟨some (.authentication ⟨"ep", true, "fp", none, false⟩), []⟩
    ⟨"ep", true, "fp", none, false⟩ "alice" "pw" 502 "Bad Gateway"
    (some (.authentication ⟨"ep", true, "fp", none, true⟩)) (.ok ⟨"a"⟩) none rfl (by decide)

/-- C4 counterexample: on a WebFlowRequired outcome the credentials path
does not clear the in-state error to null: a pre-existing error survives the
transition (only supportsBasicAuth and loading change). -/
theorem claim_C4_counterexample :
    (authenticateWithBasicAuth
        ⟨some (.authentication ⟨"ep", true, "fp", some (mkError "previous failure"), false⟩), []⟩
        "alice" "pw" (.ok .webFlowRequired)
        (some (.authentication ⟨"ep", true, "fp", some (mkError "previous failure"), true⟩))
        (.ok ⟨"alice"⟩) none).2.1.state =
      some (.authentication ⟨"ep", false, "fp", some (mkError "previous failure"), false⟩) ∧
    (authenticateWithBasicAuth
        ⟨some (.authentication ⟨"ep", true, "fp", some (mkError "previous failure"), false⟩), []⟩
        "alice" "pw" (.ok .webFlowRequired)
        (some (.authentication ⟨"ep", true, "fp", some (mkError "previous failure"), true⟩))
        (.ok ⟨"alice"⟩) none).2.1.state ≠
      some (.authentication ⟨"ep", false, "fp", none, false⟩) := by
  constructor
  · rfl
  · decide

/-- C4 as amended: on a WebFlowRequired outcome both paths end on the
Authentication step with supportsBasicAuth forced to false and loading
cleared; the two-factor path clears error to null (and recomputes the
forgot-password url), while the credentials path leaves the error field as
it was in the pre-submission snapshot. -/
theorem claim_C4 :
    (∀ (store : SignInStore) (a : AuthState) (username password : String)
        (r₁ : Option SignInState) (ur : Except Err Account) (r₂ : Option SignInState),
      store.state = some (.authentication a) →
      stepIs r₁ .authentication = true →
      authenticateWithBasicAuth store username password (.ok .webFlowRequired) r₁ ur r₂ =
        (.ok, { store with state := some (.authentication { a with loading := false, supportsBasicAuth := false }) },
          [.didUpdate (some (.authentication { a with loading := true })),
           .didUpdate (some (.authentication { a with loading := false, supportsBasicAuth := false }))])) ∧
    (∀ (env : Env) (store : SignInStore) (t : TwoFactorState) (otp : String)
        (r₁ : Option SignInState) (ur : Except Err Account) (r₂ : Option SignInState),
      store.state = some (.twoFactorAuthentication t) →
      stepIs r₁ .twoFactorAuthentication = true →
      setTwoFactorOTP env store otp (.ok .webFlowRequired) r₁ ur r₂ =
        (.ok, { store with state := some (.authentication ⟨t.endpoint, false, getForgotPasswordURL env t.endpoint, none, false⟩) },
          [.didUpdate (some (.twoFactorAuthentication { t with loading := true })),
           .didUpdate (some (.authentication ⟨t.endpoint, false, getForgotPasswordURL env t.endpoint, none, false⟩))])) := by
  constructor
  · intro store a username password r₁ ur r₂ hs hr
    simp [authenticateWithBasicAuth, hs, hr]
  · intro env store t otp r₁ ur r₂ hs hr
    simp [setTwoFactorOTP, hs, hr]

/-- Witness for the amended C4: a concrete WebFlowRequired outcome during
two-factor submission returns to Authentication with error cleared. -/
theorem claim_C4_witness :
    setTwoFactorOTP ⟨id, id⟩
        ⟨some (.twoFactorAuthentication ⟨"ep", "u", "p", .sms, some (mkError "boom"), false⟩), []⟩
        "123456" (.ok .webFlowRequired)
        (some (.twoFactorAuthentication ⟨"ep", "u", "p", .sms, some (mkError "boom"), true⟩))
        (.ok ⟨"u"⟩) none =
      (.ok, ⟨some (.authentication ⟨"ep", false, "ep/password_reset", none, false⟩), []⟩,
        [.didUpdate (some (.twoFactorAuthentication ⟨"ep", "u", "p", .sms, some (mkError "boom"), true⟩)),
         .didUpdate (some (.authentication ⟨"ep", false, "ep/password_reset", none, false⟩))]) :=
  claim_C4.2 ⟨id, id⟩
    ⟨some (.twoFactorAuthentication ⟨"ep", "u", "p", .sms, some (mkError "boom"), false⟩), []⟩
    ⟨"ep", "u", "p", .sms, some (mkError "boom"), false⟩ "123456"
    (some (.twoFactorAuthentication ⟨"ep", "u", "p", .sms, some (mkError "boom"), true⟩))
    (.ok ⟨"u"⟩) none rfl (by decide)

/-- C1 counterexample: a failure branch is not silently discarded after a
reset. The flow is reset (the state observed when the browser OAuth await
settles is none), the OAuth delegate rejects, and authenticateWithBrowser
nevertheless writes an Authentication state carrying the error — the flow
state is resurrected instead of remaining absent. -/
theorem claim_C1_counterexample :
    (authenticateWithBrowser
        ⟨some (.authentication ⟨"https://api.github.com", true, "fp", none, false⟩), []⟩
        (.error (mkError "The OAuth flow was cancelled")) none).2.1.state =
      some (.authentication ⟨"https://api.github.com", true, "fp",
        some (mkError "The OAuth flow was cancelled"), false⟩) ∧
    (authenticateWithBrowser
        ⟨some (.authentication ⟨"https://api.github.com", true, "fp", none, false⟩), []⟩
        (.error (mkError "The OAuth flow was cancelled")) none).2.1.state ≠ none := by
  constructor
  · rfl
  · decide

/-- C1 as amended: whenever an await settles with a fulfilled value after
the flow has been reset or the step has changed, the result is silently
discarded — the operation returns normally, the state stays exactly as the
resume observed it, and nothing is written or emitted beyond the loading
write made before the await (at most a capability notification from the
probe itself). The rejection branches are exempt: a rejected authorization
emits the error out of band regardless, and a rejected browser OAuth or
endpoint probe writes an error state from the pre-await snapshot
regardless. The capability refresh of beginDotComSignIn discards a stale
resume on both its branches. -/
theorem claim_C1 :
    (∀ (store : SignInStore) (a : AuthState) (username password : String)
        (response : AuthorizationResponse) (r₁ : Option SignInState)
        (ur : Except Err Account) (r₂ : Option SignInState),
      store.state = some (.authentication a) →
      stepIs r₁ .authentication = false →
      silentlyDiscarded r₁ (.authentication { a with loading := true })
        (authenticateWithBasicAuth store username password (.ok response) r₁ ur r₂)) ∧
    (∀ (store : SignInStore) (a : AuthState) (username password token : String)
        (user : Account) (r₁ r₂ : Option SignInState),
      store.state = some (.authentication a) →
      stepIs r₁ .authentication = true →
      stepIs r₂ .authentication = false →
      silentlyDiscarded r₂ (.authentication { a with loading := true })
        (authenticateWithBasicAuth store username password
          (.ok (.authorized token)) r₁ (.ok user) r₂)) ∧
    (∀ (store : SignInStore) (a : AuthState) (account : Account)
        (r₁ : Option SignInState),
      store.state = some (.authentication a) →
      stepIs r₁ .authentication = false →
      silentlyDiscarded r₁ (.authentication { a with loading := true })
        (authenticateWithBrowser store (.ok account) r₁)) ∧
    (∀ (env : Env) (store : SignInStore) (t : TwoFactorState) (otp : String)
        (response : AuthorizationResponse) (r₁ : Option SignInState)
        (ur : Except Err Account) (r₂ : Option SignInState),
      store.state = some (.twoFactorAuthentication t) →
      stepIs r₁ .twoFactorAuthentication = false →
      silentlyDiscarded r₁ (.twoFactorAuthentication { t with loading := true })
        (setTwoFactorOTP env store otp (.ok response) r₁ ur r₂)) ∧
    (∀ (env : Env) (store : SignInStore) (t : TwoFactorState) (otp token : String)
        (user : Account) (r₁ r₂ : Option SignInState),
      store.state = some (.twoFactorAuthentication t) →
      stepIs r₁ .twoFactorAuthentication = true →
      stepIs r₂ .twoFactorAuthentication = false →
      silentlyDiscarded r₂ (.twoFactorAuthentication { t with loading := true })
        (setTwoFactorOTP env store otp (.ok (.authorized token)) r₁ (.ok user) r₂)) ∧
    (∀ (env : Env) (store : SignInStore) (ee : EndpointEntryState)
        (url validUrl : String) (outcome : MetadataOutcome) (now : Nat)
        (r₁ : Option SignInState) (v : Bool),
      store.state = some (.endpointEntry ee) →
      (endpointSupportsBasicAuth store (env.getEnterpriseAPIURL validUrl) outcome now).1 = .ok v →
      stepIs r₁ .endpointEntry = false →
      silentlyDiscarded r₁ (.endpointEntry { ee with loading := true })
        (setEndpoint env store url (.ok validUrl) outcome now r₁)) ∧
    (∀ (store : SignInStore) (outcome : MetadataOutcome) (now : Nat)
        (r₁ : Option SignInState),
      stepIs r₁ .authentication = false →
      (beginDotComSignInRefresh store outcome now r₁).1.state = r₁ ∧
      ((beginDotComSignInRefresh store outcome now r₁).2).filter isWriteOrError = []) := by
  refine ⟨?_, ?_, ?_, ?_, ?_, ?_, ?_⟩
  · intro store a username password response r₁ ur r₂ hs hr
    simp [authenticateWithBasicAuth, hs, hr, silentlyDiscarded, isWriteOrError]
  · intro store a username password token user r₁ r₂ hs hr₁ hr₂
    simp [authenticateWithBasicAuth, hs, hr₁, hr₂, silentlyDiscarded, isWriteOrError]
  · intro store a account r₁ hs hr
    simp [authenticateWithBrowser, hs, hr, silentlyDiscarded, isWriteOrError]
  · intro env store t otp response r₁ ur r₂ hs hr
    simp [setTwoFactorOTP, hs, hr, silentlyDiscarded, isWriteOrError]
  · intro env store t otp token user r₁ r₂ hs hr₁ hr₂
    simp [setTwoFactorOTP, hs, hr₁, hr₂, silentlyDiscarded, isWriteOrError]
  · intro env store ee url validUrl outcome now r₁ v hs hok hr
    rcases hp : endpointSupportsBasicAuth store (env.getEnterpriseAPIURL validUrl) outcome now
      with ⟨res, s₁, pevs⟩
    rw [hp] at hok
    simp only at hok
    have hev : pevs.filter isWriteOrError = [] := by
      have h := endpointSupportsBasicAuth_events store (env.getEnterpriseAPIURL validUrl) outcome now
      rw [hp] at h
      simpa using h
    subst hok
    simp [setEndpoint, hs, hp, hr, silentlyDiscarded, isWriteOrError, hev,
      List.filter_append]
  · intro store outcome now r₁ hr
    rcases hp : endpointSupportsBasicAuth { store with state := r₁ }
        getDotComAPIEndpoint outcome now with ⟨res, s₁, pevs⟩
    have hst : s₁.state = r₁ := by
      have h := endpointSupportsBasicAuth_state { store with state := r₁ }
        getDotComAPIEndpoint outcome now
      rw [hp] at h
      simpa using h
    have hev : pevs.filter isWriteOrError = [] := by
      have h := endpointSupportsBasicAuth_events { store with state := r₁ }
        getDotComAPIEndpoint outcome now
      rw [hp] at h
      simpa using h
    rcases res with e | b
    · simp [beginDotComSignInRefresh, hp, hst, hev]
    · rcases r₁ with _ | st
      · simp [beginDotComSignInRefresh, hp, hst, hev]
      · rcases st with ee | ast | t | _
        · simp [beginDotComSignInRefresh, hp, hst, hev]
        · simp [stepIs, SignInState.kind] at hr
        · simp [beginDotComSignInRefresh, hp, hst, hev]
        · simp [beginDotComSignInRefresh, hp, hst, hev]

/-- Witness for the amended C1: a WebFlowRequired outcome resolving after a
reset is silently discarded by the credentials path. -/
theorem claim_C1_witness :
    silentlyDiscarded none (.authentication ⟨"ep", true, "fp", none, true⟩)
      (authenticateWithBasicAuth ⟨some (.authentication ⟨"ep", true, "fp", none, false⟩), []⟩
        "alice" "pw" (.ok .webFlowRequired) none (.ok ⟨"a"⟩) none) :=
  claim_C1.1 ⟨some (.authentication ⟨"ep", true, "fp", none, false⟩), []⟩
    ⟨"ep", true, "fp", none, false⟩ "alice" "pw" .webFlowRequired none (.ok ⟨"a"⟩) none
    rfl (by decide)

/-- The authenticated-account discipline for a single operation run with
method `m`: at most one authenticated event is emitted, every one carries
method `m`, and every one is immediately followed by a state write whose
written state is Success. -/
def authEvtsOk (m : SignInMethod) (evs : List StoreEvent) : Prop :=
  (authEvts evs).length ≤ 1 ∧ (∀ p ∈ authEvts evs, p.2 = m) ∧
    authFollowedBySuccess evs = true

/-- `authEvts` distributes over list append. -/
theorem authEvts_append (l₁ l₂ : List StoreEvent) :
    authEvts (l₁ ++ l₂) = authEvts l₁ ++ authEvts l₂ := by
  induction l₁ with
  | nil => rfl
  | cons e rest ih => cases e <;> simp [authEvts, ih]

/-- Every run of authenticateWithBasicAuth obeys the authenticated-account
discipline with method basic. -/
theorem authenticateWithBasicAuth_authOk (store : SignInStore) (u p : String)
    (ar : Except Err AuthorizationResponse) (r₁ : Option SignInState)
    (ur : Except Err Account) (r₂ : Option SignInState) :
    authEvtsOk .basic (authenticateWithBasicAuth store u p ar r₁ ur r₂).2.2 := by
  rcases store with ⟨st, cache⟩
  rcases st with _ | st
  · simp [authenticateWithBasicAuth, authEvtsOk, authEvts, authFollowedBySuccess]
  rcases st with ee | a | t | _
  · simp [authenticateWithBasicAuth, authEvtsOk, authEvts, authFollowedBySuccess]
  · rcases ar with e | resp
    · simp [authenticateWithBasicAuth, authEvtsOk, authEvts, authFollowedBySuccess]
    · rcases hr₁ : stepIs r₁ .authentication
      · simp [authenticateWithBasicAuth, hr₁, authEvtsOk, authEvts, authFollowedBySuccess]
      · rcases resp with token | _ | ty | ⟨sc, tx⟩ | _ | _ | _ | _
        · rcases ur with e | user
          · simp [authenticateWithBasicAuth, hr₁, authEvtsOk, authEvts, authFollowedBySuccess]
          · rcases hr₂ : stepIs r₂ .authentication <;>
              simp [authenticateWithBasicAuth, hr₁, hr₂, authEvtsOk, authEvts,
                authFollowedBySuccess]
        all_goals
          simp [authenticateWithBasicAuth, hr₁, authEvtsOk, authEvts, authFollowedBySuccess]
  · simp [authenticateWithBasicAuth, authEvtsOk, authEvts, authFollowedBySuccess]
  · simp [authenticateWithBasicAuth, authEvtsOk, authEvts, authFollowedBySuccess]

/-- Every run of setTwoFactorOTP obeys the authenticated-account discipline
with method basic. -/
theorem setTwoFactorOTP_authOk (env : Env) (store : SignInStore) (otp : String)
    (ar : Except Err AuthorizationResponse) (r₁ : Option SignInState)
    (ur : Except Err Account) (r₂ : Option SignInState) :
    authEvtsOk .basic (setTwoFactorOTP env store otp ar r₁ ur r₂).2.2 := by
  rcases store with ⟨st, cache⟩
  rcases st with _ | st
  · simp [setTwoFactorOTP, authEvtsOk, authEvts, authFollowedBySuccess]
  rcases st with ee | a | t | _
  · simp [setTwoFactorOTP, authEvtsOk, authEvts, authFollowedBySuccess]
  · simp [setTwoFactorOTP, authEvtsOk, authEvts, authFollowedBySuccess]
  · rcases ar with e | resp
    · simp [setTwoFactorOTP, authEvtsOk, authEvts, authFollowedBySuccess]
    · rcases hr₁ : stepIs r₁ .twoFactorAuthentication
      · simp [setTwoFactorOTP, hr₁, authEvtsOk, authEvts, authFollowedBySuccess]
      · rcases resp with token | _ | ty | ⟨sc, tx⟩ | _ | _ | _ | _
        · rcases ur with e | user
          · simp [setTwoFactorOTP, hr₁, authEvtsOk, authEvts, authFollowedBySuccess]
          · rcases hr₂ : stepIs r₂ .twoFactorAuthentication <;>
              simp [setTwoFactorOTP, hr₁, hr₂, authEvtsOk, authEvts, authFollowedBySuccess]
        all_goals
          simp [setTwoFactorOTP, hr₁, authEvtsOk, authEvts, authFollowedBySuccess]
  · simp [setTwoFactorOTP, authEvtsOk, authEvts, authFollowedBySuccess]

/-- Every run of authenticateWithBrowser obeys the authenticated-account
discipline with method web. -/
theorem authenticateWithBrowser_authOk (store : SignInStore)
    (orr : Except Err Account) (r₁ : Option SignInState) :
    authEvtsOk .web (authenticateWithBrowser store orr r₁).2.2 := by
  rcases store with ⟨st, cache⟩
  rcases st with _ | st
  · simp [authenticateWithBrowser, authEvtsOk, authEvts, authFollowedBySuccess]
  rcases st with ee | a | t | _
  · simp [authenticateWithBrowser, authEvtsOk, authEvts, authFollowedBySuccess]
  · rcases orr with e | account
    · simp [authenticateWithBrowser, authEvtsOk, authEvts, authFollowedBySuccess]
    · rcases hr₁ : stepIs r₁ .authentication <;>
        simp [authenticateWithBrowser, hr₁, authEvtsOk, authEvts, authFollowedBySuccess]
  · simp [authenticateWithBrowser, authEvtsOk, authEvts, authFollowedBySuccess]
  · simp [authenticateWithBrowser, authEvtsOk, authEvts, authFollowedBySuccess]

/-- setEndpoint never emits an authenticated-account event. -/
theorem setEndpoint_authEvts (env : Env) (store : SignInStore) (url : String)
    (vr : Except Err String) (outcome : MetadataOutcome) (now : Nat)
    (r₁ : Option SignInState) :
    authEvts (setEndpoint env store url vr outcome now r₁).2.2 = [] := by
  rcases store with ⟨st, cache⟩
  rcases st with _ | st
  · simp [setEndpoint, authEvts]
  rcases st with ee | a | t | _
  · rcases vr with e | validUrl
    · simp [setEndpoint, authEvts]
    · rcases hp : endpointSupportsBasicAuth ⟨some (.endpointEntry ee), cache⟩
          (env.getEnterpriseAPIURL validUrl) outcome now with ⟨res, s₁, pevs⟩
      have hpe : authEvts pevs = [] := by
        have h := endpointSupportsBasicAuth_authEvts ⟨some (.endpointEntry ee), cache⟩
          (env.getEnterpriseAPIURL validUrl) outcome now
        rw [hp] at h
        simpa using h
      rcases res with e | v
      · simp [setEndpoint, hp, authEvts_append, hpe, authEvts]
      · rcases hr : stepIs r₁ .endpointEntry <;>
          simp [setEndpoint, hp, hr, authEvts_append, hpe, authEvts]
  · simp [setEndpoint, authEvts]
  · simp [setEndpoint, authEvts]
  · simp [setEndpoint, authEvts]

/-- The capability refresh never emits an authenticated-account event. -/
theorem beginDotComSignInRefresh_authEvts (store : SignInStore)
    (outcome : MetadataOutcome) (now : Nat) (r : Option SignInState) :
    authEvts (beginDotComSignInRefresh store outcome now r).2 = [] := by
  rcases hp : endpointSupportsBasicAuth { store with state := r }
      getDotComAPIEndpoint outcome now with ⟨res, s₁, pevs⟩
  have hpe : authEvts pevs = [] := by
    have h := endpointSupportsBasicAuth_authEvts { store with state := r }
      getDotComAPIEndpoint outcome now
    rw [hp] at h
    simpa using h
  rcases res with e | v
  · simp [beginDotComSignInRefresh, hp, hpe]
  · rcases r with _ | st
    · simp [beginDotComSignInRefresh, hp, hpe]
    · rcases st with ee | a | t | _
      · simp [beginDotComSignInRefresh, hp, hpe]
      · by_cases ha : a.endpoint = getDotComAPIEndpoint <;>
          simp [beginDotComSignInRefresh, hp, hpe, ha, authEvts_append, authEvts]
      · simp [beginDotComSignInRefresh, hp, hpe]
      · simp [beginDotComSignInRefresh, hp, hpe]

/-- The subscription side effect never emits an authenticated-account
event. -/
theorem onDotComSupportsBasicAuthUpdated_authEvts (store : SignInStore)
    (outcome : MetadataOutcome) (now : Nat) :
    authEvts (onDotComSupportsBasicAuthUpdated store outcome now).2 = [] := by
  rcases hh : cacheHas store.endpointSupportBasicAuth getDotComAPIEndpoint
  · rcases hp : endpointSupportsBasicAuth store getDotComAPIEndpoint outcome now
      with ⟨res, s₁, pevs⟩
    have hpe : authEvts pevs = [] := by
      have h := endpointSupportsBasicAuth_authEvts store getDotComAPIEndpoint outcome now
      rw [hp] at h
      simpa using h
    simp [onDotComSupportsBasicAuthUpdated, hh, hp, hpe]
  · simp [onDotComSupportsBasicAuthUpdated, hh, authEvts]

/-- C2: the authenticated-account notification is emitted exactly once per
successful flow, only on a transition whose written state is Success, with
method basic on the credential and two-factor paths and web on the browser
path, carrying the resolved account identity; no other operation of the
store ever emits it. -/
theorem claim_C2 :
    (∀ (store : SignInStore) (u p : String) (ar : Except Err AuthorizationResponse)
        (r₁ : Option SignInState) (ur : Except Err Account) (r₂ : Option SignInState),
      authEvtsOk .basic (authenticateWithBasicAuth store u p ar r₁ ur r₂).2.2) ∧
    (∀ (env : Env) (store : SignInStore) (otp : String)
        (ar : Except Err AuthorizationResponse) (r₁ : Option SignInState)
        (ur : Except Err Account) (r₂ : Option SignInState),
      authEvtsOk .basic (setTwoFactorOTP env store otp ar r₁ ur r₂).2.2) ∧
    (∀ (store : SignInStore) (orr : Except Err Account) (r₁ : Option SignInState),
      authEvtsOk .web (authenticateWithBrowser store orr r₁).2.2) ∧
    (∀ (store : SignInStore) (a : AuthState) (u p token : String) (user : Account)
        (r₁ r₂ : Option SignInState),
      store.state = some (.authentication a) →
      stepIs r₁ .authentication = true →
      stepIs r₂ .authentication = true →
      authenticateWithBasicAuth store u p (.ok (.authorized token)) r₁ (.ok user) r₂ =
        (.ok, { store with state := some .success },
          [.didUpdate (some (.authentication { a with loading := true })),
           .didAuthenticate user .basic, .didUpdate (some .success)])) ∧
    (∀ (env : Env) (store : SignInStore) (t : TwoFactorState) (otp token : String)
        (user : Account) (r₁ r₂ : Option SignInState),
      store.state = some (.twoFactorAuthentication t) →
      stepIs r₁ .twoFactorAuthentication = true →
      stepIs r₂ .twoFactorAuthentication = true →
      setTwoFactorOTP env store otp (.ok (.authorized token)) r₁ (.ok user) r₂ =
        (.ok, { store with state := some .success },
          [.didUpdate (some (.twoFactorAuthentication { t with loading := true })),
           .didAuthenticate user .basic, .didUpdate (some .success)])) ∧
    (∀ (store : SignInStore) (a : AuthState) (account : Account)
        (r₁ : Option SignInState),
      store.state = some (.authentication a) →
      stepIs r₁ .authentication = true →
      authenticateWithBrowser store (.ok account) r₁ =
        (.ok, { store with state := some .success },
          [.didUpdate (some (.authentication { a with loading := true })),
           .didAuthenticate account .web, .didUpdate (some .success)])) ∧
    (∀ store : SignInStore, authEvts (reset store).2 = []) ∧
    (∀ store : SignInStore, authEvts (beginEnterpriseSignIn store).2 = []) ∧
    (∀ (env : Env) (store : SignInStore) (now : Nat),
      authEvts (beginDotComSignIn env store now).2 = []) ∧
    (∀ (store : SignInStore) (outcome : MetadataOutcome) (now : Nat)
        (r : Option SignInState),
      authEvts (beginDotComSignInRefresh store outcome now r).2 = []) ∧
    (∀ (env : Env) (store : SignInStore) (url : String) (vr : Except Err String)
        (outcome : MetadataOutcome) (now : Nat) (r₁ : Option SignInState),
      authEvts (setEndpoint env store url vr outcome now r₁).2.2 = []) ∧
    (∀ (store : SignInStore) (endpoint : String) (outcome : MetadataOutcome) (now : Nat),
      authEvts (endpointSupportsBasicAuth store endpoint outcome now).2.2 = []) ∧
    (∀ (store : SignInStore) (outcome : MetadataOutcome) (now : Nat),
      authEvts (onDotComSupportsBasicAuthUpdated store outcome now).2 = []) ∧
    (∀ (store : SignInStore) (now : Nat),
      authEvts (tryGetDotComSupportsBasicAuthOp store now).2.2 = []) := by
  refine ⟨authenticateWithBasicAuth_authOk, setTwoFactorOTP_authOk,
    authenticateWithBrowser_authOk, ?_, ?_, ?_, fun _ => rfl, fun _ => rfl,
    fun _ _ _ => rfl, beginDotComSignInRefresh_authEvts, setEndpoint_authEvts,
    endpointSupportsBasicAuth_authEvts, onDotComSupportsBasicAuthUpdated_authEvts,
    fun _ _ => rfl⟩
  · intro store a u p token user r₁ r₂ hs hr₁ hr₂
    simp [authenticateWithBasicAuth, hs, hr₁, hr₂]
  · intro env store t otp token user r₁ r₂ hs hr₁ hr₂
    simp [setTwoFactorOTP, hs, hr₁, hr₂]
  · intro store a account r₁ hs hr₁
    simp [authenticateWithBrowser, hs, hr₁]

/-- Witness for C2: a concrete successful two-factor flow emits exactly one
authenticated event, with method basic, immediately before the Success
write. -/
theorem claim_C2_witness :
    setTwoFactorOTP ⟨id, id⟩
        ⟨some (.twoFactorAuthentication ⟨"ep", "u", "p", .app, none, false⟩), []⟩ "123456"
        (.ok (.authorized "token"))
        (some (.twoFactorAuthentication ⟨"ep", "u", "p", .app, none, true⟩))
        (.ok ⟨"alice"⟩)
        (some (.twoFactorAuthentication ⟨"ep", "u", "p", .app, none, true⟩)) =
      (.ok, ⟨some .success, []⟩,
        [.didUpdate (some (.twoFactorAuthentication ⟨"ep", "u", "p", .app, none, true⟩)),
         .didAuthenticate ⟨"alice"⟩ .basic, .didUpdate (some .success)]) :=
  claim_C2.2.2.2.2.1 ⟨id, id⟩
    ⟨some (.twoFactorAuthentication ⟨"ep", "u", "p", .app, none, false⟩), []⟩
    ⟨"ep", "u", "p", .app, none, false⟩ "123456" "token" ⟨"alice"⟩
    (some (.twoFactorAuthentication ⟨"ep", "u", "p", .app, none, true⟩))
    (some (.twoFactorAuthentication ⟨"ep", "u", "p", .app, none, true⟩))
    rfl (by decide) (by decide)

end Desktop
